import Mathlib

/-!
Shallow embedding of the calcium-tracker estimation backend
(`src/functions/src/services/estimateCalciumService.ts`, the inlined
`openaiClient` module, and the config/env module inlined in
`src/functions/src/index.ts`), together with theorems settling the
frozen claims about the natural-language specification.

The environment (`process.env`) is modelled as a partial map from
variable names to string values.  JavaScript-specific behaviour that
the source relies on (string falsiness, `Number(...)` coercion,
`JSON.parse`, `Math.floor`, `String.prototype.trim`) is embedded
explicitly as executable Lean functions.
-/

namespace CalciumTracker

/-- `process.env`: a partial map from variable names to values. -/
abbrev Env := String → Option String

/-- The `EstimateError` class from `services/errors`: a typed error
carrying a machine-readable `code` and a human-readable `message`. -/
structure EstimateError where
  code : String
  message : String
deriving DecidableEq, Repr

/-- JS falsiness of an optional string value: `undefined` and the empty
string are falsy, every other string is truthy. -/
def jsStrFalsy : Option String → Bool
  | none => true
  | some s => s = ""

/-- Lowercase mapping of a string (`String.prototype.toLowerCase`,
restricted to the simple case mapping). -/
def jsToLower (s : String) : String := ⟨s.data.map Char.toLower⟩

def jsWhitespaceChar (c : Char) : Bool :=
  c = ' ' || c = '\t' || c = '\n' || c = '\r' ||
    c = Char.ofNat 0x0b || c = Char.ofNat 0x0c || c = Char.ofNat 0xa0 || c = Char.ofNat 0xfeff

/-- `String.prototype.trim`: strip leading and trailing whitespace. -/
def jsTrim (s : String) : String :=
  ⟨((s.data.dropWhile jsWhitespaceChar).reverse.dropWhile jsWhitespaceChar).reverse⟩

/-- `isPresent` from the env module of `index.ts`:
`typeof value === "string" && value.trim().length > 0`. -/
def isPresent : Option String → Bool
  | none => false
  | some s => 0 < (jsTrim s).length

/-! ## JavaScript `Number(string)` coercion

`parseTimeoutMs` feeds the raw environment string to `Number(...)` and
checks `Number.isFinite(parsed) && parsed > 0`.  We embed the
ECMAScript StringToNumber grammar: surrounding whitespace is ignored,
the empty string is `0`, signed decimal literals (with optional
fraction and exponent) and unsigned binary/octal/hex literals are
recognised, `Infinity` is signed, and anything else is `NaN`.
Finite values are represented exactly as `m * 10 ^ e`. -/

/-- Result of JS `Number(string)`: `NaN`, a signed infinity, or a
finite decimal `m * 10 ^ e`. -/
inductive JsNum where
  | nan
  | inf (neg : Bool)
  | fin (m : Int) (e : Int)
deriving DecidableEq, Repr

/-- Strip leading and trailing JS whitespace from a character list. -/
def jsTrimChars (cs : List Char) : List Char :=
  ((cs.dropWhile jsWhitespaceChar).reverse.dropWhile jsWhitespaceChar).reverse

def digitVal (c : Char) : Nat := c.toNat - '0'.toNat

def digitsToNat (ds : List Char) : Nat :=
  ds.foldl (fun acc c => 10 * acc + digitVal c) 0

def isHexChar (c : Char) : Bool :=
  c.isDigit || ('a' ≤ c && c ≤ 'f') || ('A' ≤ c && c ≤ 'F')

def hexVal (c : Char) : Nat :=
  if c.isDigit then c.toNat - '0'.toNat
  else if 'a' ≤ c && c ≤ 'f' then c.toNat - 'a'.toNat + 10
  else c.toNat - 'A'.toNat + 10

def radixToNat (radix : Nat) (ds : List Char) : Nat :=
  ds.foldl (fun acc c => radix * acc + hexVal c) 0

/-- Parse an unsigned decimal literal `DecimalDigits . DecimalDigits?
ExponentPart?` (or starting with `.`), requiring full consumption.
Returns the value as mantissa and power-of-ten exponent. -/
def parseDecimalLit (cs : List Char) : Option (Nat × Int) :=
  let ip := cs.takeWhile Char.isDigit
  let r1 := cs.dropWhile Char.isDigit
  let (fp, r2) :=
    match r1 with
    | '.' :: r => (r.takeWhile Char.isDigit, r.dropWhile Char.isDigit)
    | _ => ([], r1)
  if ip.isEmpty && fp.isEmpty then none
  else
    let mantissa := digitsToNat (ip ++ fp)
    let scale : Int := Int.ofNat fp.length
    match r2 with
    | [] => some (mantissa, -scale)
    | e :: r3 =>
      if e = 'e' || e = 'E' then
        let (expNeg, r4) :=
          match r3 with
          | '+' :: r => (false, r)
          | '-' :: r => (true, r)
          | r => (false, r)
        let ed := r4.takeWhile Char.isDigit
        if ed.isEmpty || !(r4.dropWhile Char.isDigit).isEmpty then none
        else
          let ev : Int := Int.ofNat (digitsToNat ed)
          some (mantissa, (if expNeg then -ev else ev) - scale)
      else none

/-- Parse a signed `StrDecimalLiteral` (decimal or `Infinity`). -/
def parseSignedDecimal (neg : Bool) (cs : List Char) : JsNum :=
  if cs = "Infinity".data then .inf neg
  else
    match parseDecimalLit cs with
    | some (m, e) => .fin (if neg then -(Int.ofNat m) else Int.ofNat m) e
    | none => .nan

/-- Embedding of the ECMAScript `Number(string)` coercion. -/
def jsNumber (s : String) : JsNum :=
  match jsTrimChars s.data with
  | [] => .fin 0 0
  | '+' :: r => parseSignedDecimal false r
  | '-' :: r => parseSignedDecimal true r
  | '0' :: b :: r =>
    if b = 'x' || b = 'X' then
      if !r.isEmpty && r.all isHexChar then .fin (Int.ofNat (radixToNat 16 r)) 0 else .nan
    else if b = 'o' || b = 'O' then
      if !r.isEmpty && r.all (fun c => '0' ≤ c && c ≤ '7') then
        .fin (Int.ofNat (radixToNat 8 r)) 0
      else .nan
    else if b = 'b' || b = 'B' then
      if !r.isEmpty && r.all (fun c => c = '0' || c = '1') then
        .fin (Int.ofNat (radixToNat 2 r)) 0
      else .nan
    else parseSignedDecimal false ('0' :: b :: r)
  | cs => parseSignedDecimal false cs

/-- `Math.floor` of the finite value `m * 10 ^ e`. -/
def floorFin (m : Int) (e : Int) : Int :=
  if 0 ≤ e then m * (10 : Int) ^ e.toNat
  else Int.fdiv m ((10 : Int) ^ (-e).toNat)

/-- `parseTimeoutMs` (identical in `estimateCalciumService.ts` and the
env module of `index.ts`): falsy input or a non-finite or non-positive
`Number(...)` result falls back to 45000, otherwise `Math.floor`. -/
def parseTimeoutMs (raw : Option String) : Int :=
  match raw with
  | none => 45000
  | some s =>
    if s = "" then 45000
    else
      match jsNumber s with
      | .fin m e => if 0 < m then floorFin m e else 45000
      | _ => 45000

/-! ## `EstimateConfig` and `getConfig` (`estimateCalciumService.ts`) -/

/-- `value && value.trim().length > 0 ? value : undefined`. -/
def keepIfTrimNonempty (o : Option String) : Option String :=
  match o with
  | none => none
  | some s => if s = "" then none else if 0 < (jsTrim s).length then some s else none

/-- `value?.trim() || defaultValue`. -/
def trimOrDefault (o : Option String) (d : String) : String :=
  match o with
  | none => d
  | some s => if jsTrim s = "" then d else jsTrim s

/-- `value?.trim() || undefined`. -/
def trimNonemptyOpt (o : Option String) : Option String :=
  match o with
  | none => none
  | some s => if jsTrim s = "" then none else some (jsTrim s)

/-- The per-request configuration snapshot built by `getConfig`. -/
structure EstimateConfig where
  useMock : Bool
  apiKeyPresent : Bool
  model : String
  baseUrl : Option String
  apiKey : Option String
  timeoutMs : Int
  promptVersion : String
  promptOverride : Option String
deriving DecidableEq, Repr

def DEFAULT_MODEL : String := "gpt-4o-mini"
def DEFAULT_PROMPT_VERSION : String := "estimateCalcium_v1"

/-- `getConfig` from `estimateCalciumService.ts`: mock mode comes from
`ESTIMATE_MODE`, the API key from `OPENAI_API_KEY` (kept only when its
trimmed form is non-empty), model/base-URL/prompt settings from their
respective variables, and the timeout from `parseTimeoutMs`. -/
def getConfig (env : Env) : EstimateConfig :=
  let apiKey := keepIfTrimNonempty (env "OPENAI_API_KEY")
  { useMock := jsToLower ((env "ESTIMATE_MODE").getD "") = "mock"
    apiKeyPresent := apiKey.isSome
    model := ((keepIfTrimNonempty (env "OPENAI_MODEL")).getD DEFAULT_MODEL)
    baseUrl := keepIfTrimNonempty (env "OPENAI_BASE_URL")
    apiKey := apiKey
    timeoutMs := parseTimeoutMs (env "OPENAI_TIMEOUT_MS")
    promptVersion := trimOrDefault (env "ESTIMATOR_PROMPT_VERSION") DEFAULT_PROMPT_VERSION
    promptOverride := trimNonemptyOpt (env "ESTIMATOR_PROMPT") }

/-! ## `DerivedConfig` and `getDerivedConfig` (env module of `index.ts`) -/

/-- The derived runtime configuration of the env module. -/
structure DerivedConfig where
  estimationEnabled : Bool
  lockoutActive : Bool
  rateLimitEnabled : Bool
  circuitBreakerEnabled : Bool
  adminKey : String
  deviceHashSalt : String
  localizationPackUrlBase : String
  useMockEstimate : Bool
  openaiModel : String
  openaiBaseUrl : Option String
  openaiTimeoutMs : Int
  estimatorPromptVersion : String
  estimatorPrompt : Option String
deriving DecidableEq, Repr

/-- `getDerivedConfig` from the env module of `index.ts`.  Note that
its mock flag reads `USE_MOCK_ESTIMATE`, a different variable from the
`ESTIMATE_MODE` read by `getConfig`. -/
def getDerivedConfig (env : Env) : DerivedConfig :=
  { estimationEnabled := env "ESTIMATION_ENABLED" ≠ some "false"
    lockoutActive := env "LOCKOUT_ACTIVE" = some "true"
    rateLimitEnabled := env "RATE_LIMIT_ENABLED" ≠ some "false"
    circuitBreakerEnabled := env "CIRCUIT_BREAKER_ENABLED" ≠ some "false"
    adminKey := (env "ADMIN_KEY").getD "changeme"
    deviceHashSalt := (env "DEVICE_HASH_SALT").getD "local-dev-salt"
    localizationPackUrlBase := (env "LOCALIZATION_PACK_URL_BASE").getD "http://localhost:7071/locales"
    useMockEstimate := jsToLower ((env "USE_MOCK_ESTIMATE").getD "false") = "true"
    openaiModel := trimOrDefault (env "OPENAI_MODEL") DEFAULT_MODEL
    openaiBaseUrl := trimNonemptyOpt (env "OPENAI_BASE_URL")
    openaiTimeoutMs := parseTimeoutMs (env "OPENAI_TIMEOUT_MS")
    estimatorPromptVersion := trimOrDefault (env "ESTIMATOR_PROMPT_VERSION") DEFAULT_PROMPT_VERSION
    estimatorPrompt := trimNonemptyOpt (env "ESTIMATOR_PROMPT") }

/-! ## SHA-256 (`crypto.createHash("sha256")`), FIPS 180-4

`sha256_8` in the env module hashes a secret value and keeps the first
8 hex characters.  We embed SHA-256 executably over byte lists, with
32-bit words as naturals reduced modulo `2 ^ 32`. -/

/-- UTF-8 encoding of one unicode scalar value. -/
def utf8Char (c : Char) : List Nat :=
  let n := c.toNat
  if n < 0x80 then [n]
  else if n < 0x800 then [0xc0 + n / 64, 0x80 + n % 64]
  else if n < 0x10000 then [0xe0 + n / 4096, 0x80 + n / 64 % 64, 0x80 + n % 64]
  else [0xf0 + n / 262144, 0x80 + n / 4096 % 64, 0x80 + n / 64 % 64, 0x80 + n % 64]

/-- UTF-8 encoding of a string, as `crypto`'s `update` applies it. -/
def utf8Bytes (s : String) : List Nat :=
  s.data.foldr (fun c acc => utf8Char c ++ acc) []

def w32 (x : Nat) : Nat := x % 2 ^ 32

def rotr32 (k : Nat) (x : Nat) : Nat :=
  w32 (x / 2 ^ k + x % 2 ^ k * 2 ^ (32 - k))

def not32 (x : Nat) : Nat := Nat.xor x (2 ^ 32 - 1)

def bigSigma0 (x : Nat) : Nat := Nat.xor (rotr32 2 x) (Nat.xor (rotr32 13 x) (rotr32 22 x))
def bigSigma1 (x : Nat) : Nat := Nat.xor (rotr32 6 x) (Nat.xor (rotr32 11 x) (rotr32 25 x))
def smallSigma0 (x : Nat) : Nat := Nat.xor (rotr32 7 x) (Nat.xor (rotr32 18 x) (x / 2 ^ 3))
def smallSigma1 (x : Nat) : Nat := Nat.xor (rotr32 17 x) (Nat.xor (rotr32 19 x) (x / 2 ^ 10))

def ch32 (e f g : Nat) : Nat := Nat.xor (Nat.land e f) (Nat.land (not32 e) g)
def maj32 (a b c : Nat) : Nat := Nat.xor (Nat.land a b) (Nat.xor (Nat.land a c) (Nat.land b c))

def sha256K : List Nat :=
  [1116352408, 1899447441, 3049323471, 3921009573, 961987163, 1508970993, 2453635748, 2870763221,
   3624381080, 310598401, 607225278, 1426881987, 1925078388, 2162078206, 2614888103, 3248222580,
   3835390401, 4022224774, 264347078, 604807628, 770255983, 1249150122, 1555081692, 1996064986,
   2554220882, 2821834349, 2952996808, 3210313671, 3336571891, 3584528711, 113926993, 338241895,
   666307205, 773529912, 1294757372, 1396182291, 1695183700, 1986661051, 2177026350, 2456956037,
   2730485921, 2820302411, 3259730800, 3345764771, 3516065817, 3600352804, 4094571909, 275423344,
   430227734, 506948616, 659060556, 883997877, 958139571, 1322822218, 1537002063, 1747873779,
   1955562222, 2024104815, 2227730452, 2361852424, 2428436474, 2756734187, 3204031479, 3329325298]

/-- The eight 32-bit working variables of the compression function. -/
structure Sha256State where
  a : Nat
  b : Nat
  c : Nat
  d : Nat
  e : Nat
  f : Nat
  g : Nat
  h : Nat
deriving DecidableEq, Repr

def sha256Init : Sha256State :=
  ⟨1779033703, 3144134277, 1013904242, 2773480762,
   1359893119, 2600822924, 528734635, 1541459225⟩

/-- 64-bit big-endian byte serialisation of the message bit length. -/
def be64 (n : Nat) : List Nat :=
  [n / 2 ^ 56 % 256, n / 2 ^ 48 % 256, n / 2 ^ 40 % 256, n / 2 ^ 32 % 256,
   n / 2 ^ 24 % 256, n / 2 ^ 16 % 256, n / 2 ^ 8 % 256, n % 256]

/-- SHA-256 padding: `0x80`, zeros to 56 mod 64, then the bit length. -/
def sha256Pad (msg : List Nat) : List Nat :=
  msg ++ 0x80 :: List.replicate ((119 - msg.length % 64) % 64) 0 ++ be64 (8 * msg.length)

/-- Split a byte list into 64-byte blocks (fuel-driven for kernel
reducibility; the fuel is always sufficient for padded input). -/
def toBlocks : Nat → List Nat → List (List Nat)
  | 0, _ => []
  | _, [] => []
  | fuel + 1, bytes => bytes.take 64 :: toBlocks fuel (bytes.drop 64)

/-- Combine a 64-byte block into sixteen big-endian 32-bit words. -/
def blockWords : List Nat → List Nat
  | b0 :: b1 :: b2 :: b3 :: rest =>
    (b0 * 2 ^ 24 + b1 * 2 ^ 16 + b2 * 2 ^ 8 + b3) :: blockWords rest
  | _ => []

/-- Extend sixteen schedule words to sixty-four. -/
def extendWords (ws : List Nat) : List Nat :=
  (List.range 48).foldl
    (fun acc _ =>
      let n := acc.length
      acc ++ [w32 (acc.getD (n - 16) 0 + smallSigma0 (acc.getD (n - 15) 0) +
        acc.getD (n - 7) 0 + smallSigma1 (acc.getD (n - 2) 0))])
    ws

def sha256Round (st : Sha256State) (kw : Nat × Nat) : Sha256State :=
  let t1 := w32 (st.h + bigSigma1 st.e + ch32 st.e st.f st.g + kw.1 + kw.2)
  let t2 := w32 (bigSigma0 st.a + maj32 st.a st.b st.c)
  ⟨w32 (t1 + t2), st.a, st.b, st.c, w32 (st.d + t1), st.e, st.f, st.g⟩

def sha256Block (st : Sha256State) (block : List Nat) : Sha256State :=
  let ws := extendWords (blockWords block)
  let r := (sha256K.zip ws).foldl sha256Round st
  ⟨w32 (st.a + r.a), w32 (st.b + r.b), w32 (st.c + r.c), w32 (st.d + r.d),
   w32 (st.e + r.e), w32 (st.f + r.f), w32 (st.g + r.g), w32 (st.h + r.h)⟩

/-- SHA-256 of a byte list: the final eight hash words. -/
def sha256Words (msg : List Nat) : Sha256State :=
  let padded := sha256Pad msg
  (toBlocks (padded.length / 64 + 1) padded).foldl sha256Block sha256Init

def hexDigits : List Char := "0123456789abcdef".data

def hexChar (n : Nat) : Char := hexDigits.getD (n % 16) '0'

/-- Lowercase hex rendering of one 32-bit word (eight characters). -/
def wordHexChars (w : Nat) : List Char :=
  [hexChar (w / 16 ^ 7), hexChar (w / 16 ^ 6), hexChar (w / 16 ^ 5), hexChar (w / 16 ^ 4),
   hexChar (w / 16 ^ 3), hexChar (w / 16 ^ 2), hexChar (w / 16), hexChar w]

/-- The 64-character lowercase hex digest, as `digest("hex")` yields. -/
def sha256HexChars (msg : List Nat) : List Char :=
  let st := sha256Words msg
  wordHexChars st.a ++ wordHexChars st.b ++ wordHexChars st.c ++ wordHexChars st.d ++
    wordHexChars st.e ++ wordHexChars st.f ++ wordHexChars st.g ++ wordHexChars st.h

/-- `sha256_8` from the env module of `index.ts`:
`createHash("sha256").update(value).digest("hex").slice(0, 8)`. -/
def sha256_8 (value : String) : String :=
  ⟨(sha256HexChars (utf8Bytes value)).take 8⟩

/-! ## Env specs, snapshots and `buildEnvReport` (env module of `index.ts`) -/

/-- One entry of the environment-variable specification table. -/
structure EnvSpec where
  name : String
  requiredWhen : DerivedConfig → Bool
  isSecret : Bool
  defaultValue : Option String
  description : String

/-- One per-variable status row of the report. -/
structure EnvStatus where
  name : String
  present : Bool
  required : Bool
  defaultValue : Option String
  description : String
deriving DecidableEq, Repr

/-- One sanitised snapshot entry: absent, a redacted secret
(presence, length, 8-hex-character fingerprint), or a plain value. -/
inductive EnvSnapshotEntry where
  | absent
  | secret (length : Nat) (sha256_8 : String)
  | plain (value : String)
deriving DecidableEq, Repr

structure EnvReport where
  required : List EnvStatus
  optional : List EnvStatus
  missing_required : List String
  snapshot : List (String × EnvSnapshotEntry)
deriving Repr

/-- The `OPENAI_API_KEY` row of the specification table: the only
conditionally required variable. -/
def openaiKeySpec : EnvSpec :=
  ⟨"OPENAI_API_KEY", fun cfg => cfg.estimationEnabled && !cfg.lockoutActive && !cfg.useMockEstimate,
   true, none, "OpenAI API key used for live estimation."⟩

/-- `getEnvSpec` from the env module of `index.ts`: the fourteen
recognised variables; only `OPENAI_API_KEY` is conditionally required,
and `ADMIN_KEY`, `DEVICE_HASH_SALT` and `OPENAI_API_KEY` are secret. -/
def getEnvSpec : List EnvSpec :=
  [⟨"ESTIMATION_ENABLED", fun _ => false, false, some "true",
    "Enable estimation globally (defaults to true unless set to false)."⟩,
   ⟨"LOCKOUT_ACTIVE", fun _ => false, false, some "false",
    "Force-disable estimation regardless of other settings."⟩,
   ⟨"RATE_LIMIT_ENABLED", fun _ => false, false, some "true",
    "Enable per-request rate limiting."⟩,
   ⟨"CIRCUIT_BREAKER_ENABLED", fun _ => false, false, some "true",
    "Enable circuit breaker for disabling estimation."⟩,
   ⟨"ADMIN_KEY", fun _ => false, true, some "changeme",
    "Admin key required for privileged diagnostic endpoints."⟩,
   ⟨"DEVICE_HASH_SALT", fun _ => false, true, some "local-dev-salt",
    "Salt used for hashing device install IDs."⟩,
   ⟨"LOCALIZATION_PACK_URL_BASE", fun _ => false, false, some "http://localhost:7071/locales",
    "Base URL for localization packs."⟩,
   ⟨"USE_MOCK_ESTIMATE", fun _ => false, false, some "false",
    "Use mock estimation responses instead of OpenAI."⟩,
   openaiKeySpec,
   ⟨"OPENAI_MODEL", fun _ => false, false, some DEFAULT_MODEL,
    "OpenAI model name used for estimation."⟩,
   ⟨"OPENAI_BASE_URL", fun _ => false, false, none,
    "Optional OpenAI API base URL override."⟩,
   ⟨"OPENAI_TIMEOUT_MS", fun _ => false, false, some "45000",
    "Timeout (ms) for OpenAI requests."⟩,
   ⟨"ESTIMATOR_PROMPT_VERSION", fun _ => false, false, some DEFAULT_PROMPT_VERSION,
    "Prompt version identifier for diagnostics."⟩,
   ⟨"ESTIMATOR_PROMPT", fun _ => false, false, none,
    "Optional prompt override for estimation."⟩]

/-- `truncateValue`: values longer than 120 characters are cut and
marked with an ellipsis. -/
def truncateValue (value : String) : String :=
  if value.length ≤ 120 then value else (value.take 120).push '…'

/-- `rawValue?.length ?? 0`. -/
def jsLenOpt : Option String → Nat
  | none => 0
  | some s => s.length

/-- `rawValue ? sha256_8(rawValue) : "unknown"`. -/
def jsHashOpt : Option String → String
  | none => "unknown"
  | some s => if s = "" then "unknown" else sha256_8 s

/-- The snapshot entry built for one spec row. -/
def snapshotEntry (isSecret : Bool) (present : Bool) (rawValue : Option String) :
    EnvSnapshotEntry :=
  if isSecret then
    if present then .secret (jsLenOpt rawValue) (jsHashOpt rawValue) else .absent
  else
    if present then .plain (truncateValue (rawValue.getD "")) else .absent

/-- `buildEnvReport` from the env module of `index.ts`: for each spec
row, a status is appended to `required` or `optional` according to
`requiredWhen(cfg)`, a missing required variable is recorded, and a
sanitised snapshot entry is always appended. -/
def buildEnvReport (env : Env) (cfg : DerivedConfig) : EnvReport :=
  getEnvSpec.foldl
    (fun acc spec =>
      let rawValue := env spec.name
      let present := isPresent rawValue
      let requiredNow := spec.requiredWhen cfg
      let status : EnvStatus := ⟨spec.name, present, requiredNow, spec.defaultValue, spec.description⟩
      { required := if requiredNow then acc.required ++ [status] else acc.required
        optional := if requiredNow then acc.optional else acc.optional ++ [status]
        missing_required :=
          if requiredNow && !present then acc.missing_required ++ [spec.name]
          else acc.missing_required
        snapshot := acc.snapshot ++ [(spec.name, snapshotEntry spec.isSecret present rawValue)] })
    ⟨[], [], [], []⟩

/-- Look a variable's snapshot entry up by name. -/
def snapshotLookup (report : EnvReport) (name : String) : Option EnvSnapshotEntry :=
  (report.snapshot.find? (fun p => p.1 = name)).map Prod.snd

/-- Look a variable's status row up by name (across both lists). -/
def statusLookup (report : EnvReport) (name : String) : Option EnvStatus :=
  (report.required ++ report.optional).find? (fun st => st.name = name)

/-! ## `JSON.parse`

The Schema Validator (`parseEstimatePayload` in the openai client
module) starts from `JSON.parse`.  We embed the JSON grammar with an
executable stack machine driven by fuel, so that concrete runs reduce
inside the kernel.  JS objects keep the last of duplicate keys, which
the property lookup below reproduces. -/

/-- A parsed JSON value.  Numbers are kept exactly as
`(-1)^neg * mantissa * 10^(exp10 - scale)`. -/
inductive Json where
  | null
  | bool (b : Bool)
  | num (neg : Bool) (mantissa : Nat) (scale : Nat) (exp10 : Int)
  | str (s : String)
  | arr (items : List Json)
  | obj (fields : List (String × Json))
deriving Repr

def jsonWs (c : Char) : Bool :=
  c = ' ' || c = '\t' || c = '\n' || c = '\r'

def skipWsJson (cs : List Char) : List Char := cs.dropWhile jsonWs

/-- Parse the body of a JSON string literal (after the opening quote),
accumulating decoded characters. -/
def parseJsonStringAux : List Char → List Char → Option (String × List Char)
  | [], _ => none
  | '"' :: r, acc => some (⟨acc.reverse⟩, r)
  | '\\' :: 'u' :: h1 :: h2 :: h3 :: h4 :: r, acc =>
    if isHexChar h1 && isHexChar h2 && isHexChar h3 && isHexChar h4 then
      parseJsonStringAux r
        (Char.ofNat (((hexVal h1 * 16 + hexVal h2) * 16 + hexVal h3) * 16 + hexVal h4) :: acc)
    else none
  | '\\' :: e :: r, acc =>
    if e = '"' then parseJsonStringAux r ('"' :: acc)
    else if e = '\\' then parseJsonStringAux r ('\\' :: acc)
    else if e = '/' then parseJsonStringAux r ('/' :: acc)
    else if e = 'b' then parseJsonStringAux r (Char.ofNat 8 :: acc)
    else if e = 'f' then parseJsonStringAux r (Char.ofNat 12 :: acc)
    else if e = 'n' then parseJsonStringAux r ('\n' :: acc)
    else if e = 'r' then parseJsonStringAux r ('\r' :: acc)
    else if e = 't' then parseJsonStringAux r ('\t' :: acc)
    else none
  | c :: r, acc => if c.toNat < 0x20 then none else parseJsonStringAux r (c :: acc)

/-- Parse a JSON number literal at the head of the input. -/
def parseJsonNumber (cs : List Char) : Option (Json × List Char) :=
  let (neg, r0) :=
    match cs with
    | '-' :: r => (true, r)
    | _ => (false, cs)
  let ip := r0.takeWhile Char.isDigit
  let r1 := r0.dropWhile Char.isDigit
  if ip.isEmpty then none
  else if 1 < ip.length && ip.headD 'x' = '0' then none
  else
    let (hadDot, fp, r2) :=
      match r1 with
      | '.' :: r => (true, r.takeWhile Char.isDigit, r.dropWhile Char.isDigit)
      | _ => (false, [], r1)
    if hadDot && fp.isEmpty then none
    else
      let mant := digitsToNat (ip ++ fp)
      match r2 with
      | e :: r3 =>
        if e = 'e' || e = 'E' then
          let (expNeg, r4) :=
            match r3 with
            | '+' :: r => (false, r)
            | '-' :: r => (true, r)
            | r => (false, r)
          let ed := r4.takeWhile Char.isDigit
          if ed.isEmpty then none
          else
            let ev : Int := Int.ofNat (digitsToNat ed)
            some (.num neg mant fp.length (if expNeg then -ev else ev), r4.dropWhile Char.isDigit)
        else some (.num neg mant fp.length 0, r2)
      | [] => some (.num neg mant fp.length 0, [])

/-- A partially built container on the parse stack: an array with the
items seen so far, or an object with the fields seen so far and the
key whose value is being parsed. -/
inductive JFrame where
  | arrF (acc : List Json)
  | objF (acc : List (String × Json)) (key : String)

/-- The JSON parse machine.  In parsing mode (`parsing = true`) it
reads one value at the head of the input; otherwise it attaches the
completed value `v` to the innermost open container (or finishes). -/
def jsonRun (fuel : Nat) (parsing : Bool) (stack : List JFrame) (v : Json) (cs : List Char) :
    Option (Json × List Char) :=
  match fuel with
  | 0 => none
  | f + 1 =>
    if parsing then
      match skipWsJson cs with
      | 'n' :: 'u' :: 'l' :: 'l' :: r => jsonRun f false stack .null r
      | 't' :: 'r' :: 'u' :: 'e' :: r => jsonRun f false stack (.bool true) r
      | 'f' :: 'a' :: 'l' :: 's' :: 'e' :: r => jsonRun f false stack (.bool false) r
      | '"' :: r =>
        match parseJsonStringAux r [] with
        | some (s, r1) => jsonRun f false stack (.str s) r1
        | none => none
      | '[' :: r =>
        match skipWsJson r with
        | ']' :: r1 => jsonRun f false stack (.arr []) r1
        | r1 => jsonRun f true (.arrF [] :: stack) v r1
      | '{' :: r =>
        match skipWsJson r with
        | '}' :: r1 => jsonRun f false stack (.obj []) r1
        | '"' :: r1 =>
          match parseJsonStringAux r1 [] with
          | some (k, r2) =>
            match skipWsJson r2 with
            | ':' :: r3 => jsonRun f true (.objF [] k :: stack) v r3
            | _ => none
          | none => none
        | _ => none
      | other =>
        match parseJsonNumber other with
        | some (n, r) => jsonRun f false stack n r
        | none => none
    else
      match stack with
      | [] => some (v, cs)
      | .arrF acc :: st =>
        match skipWsJson cs with
        | ',' :: r => jsonRun f true (.arrF (acc ++ [v]) :: st) v r
        | ']' :: r => jsonRun f false st (.arr (acc ++ [v])) r
        | _ => none
      | .objF acc k :: st =>
        match skipWsJson cs with
        | ',' :: r =>
          match skipWsJson r with
          | '"' :: r1 =>
            match parseJsonStringAux r1 [] with
            | some (k2, r2) =>
              match skipWsJson r2 with
              | ':' :: r3 => jsonRun f true (.objF (acc ++ [(k, v)]) k2 :: st) v r3
              | _ => none
            | none => none
          | _ => none
        | '}' :: r => jsonRun f false st (.obj (acc ++ [(k, v)])) r
        | _ => none

/-- `JSON.parse`: one JSON value with surrounding whitespace; anything
else raises (modelled as `none`).  The fuel is sufficient because every
machine step consumes input. -/
def jsonParse (s : String) : Option Json :=
  match jsonRun (2 * s.data.length + 4) true [] .null s.data with
  | some (v, rest) => if (skipWsJson rest).isEmpty then some v else none
  | none => none

/-! ## The Schema Validator (`parseEstimatePayload`) -/

/-- `!parsed || typeof parsed !== "object"` is false exactly for
truthy values of object type: arrays and objects (`null` has object
type but is falsy). -/
def jsObjectLike : Json → Bool
  | .arr _ => true
  | .obj _ => true
  | _ => false

/-- JS property access `value[key]` on a parsed JSON value; later
duplicate keys override earlier ones, and arrays have no string
properties. -/
def jsGetField (j : Json) (k : String) : Option Json :=
  match j with
  | .obj fields => (fields.reverse.find? (fun p => p.1 = k)).map Prod.snd
  | _ => none

/-- `typeof result.calcium_mg === "number"`. -/
def calciumNumeric (j : Json) : Bool :=
  match jsGetField j "calcium_mg" with
  | some (.num _ _ _ _) => true
  | _ => false

/-- `parseEstimatePayload` from the openai client module: reject
invalid JSON, non-object and falsy parses, and parses whose
`calcium_mg` is not numeric; otherwise return the parsed value
unmodified. -/
def parseEstimatePayload (payload : String) : Except EstimateError Json :=
  match jsonParse payload with
  | none => .error ⟨"model_invalid_response", "Model returned invalid JSON."⟩
  | some parsed =>
    if !jsObjectLike parsed then
      .error ⟨"model_invalid_response", "Model returned empty JSON."⟩
    else if !calciumNumeric parsed then
      .error ⟨"model_invalid_response", "Model response missing calcium estimate."⟩
    else .ok parsed

/-! ## The Upstream Estimation Client (`estimateFromImageAndAnswers`)

The network call is modelled by the duration until the SDK promise
settles and its settlement value.  The cancellation timer fires at
`timeoutMs`; when the call takes longer, the abort signal makes the
in-flight SDK call reject with an `AbortError`. -/

/-- A JS error as the `catch` block inspects it: only its `name`
matters to the control flow. -/
structure JsError where
  name : String
deriving DecidableEq, Repr

/-- One content part of a structured response output item. -/
structure ContentItem where
  type : String
  text : Option String
deriving Repr

/-- One output item; items without a `content` member are skipped. -/
inductive OutputItem where
  | noContent
  | content (items : List ContentItem)
deriving Repr

/-- The SDK response as the client consumes it: either a streamed
response (no `output` member) or a complete one with the convenience
`output_text` field and the structured `output` list. -/
inductive UpstreamResponse where
  | streamed
  | complete (output_text : Option String) (output : List OutputItem)
deriving Repr

/-- `getOutputText`: prefer a truthy `output_text`, else the first
`output_text`-typed content part carrying a string `text`. -/
def getOutputText : UpstreamResponse → Option String
  | .streamed => none
  | .complete ot out =>
    match ot with
    | some s =>
      if s ≠ "" then some s
      else (out.flatMap fun item =>
        match item with
        | .noContent => []
        | .content items => items).findSome? fun c =>
          if c.type = "output_text" then c.text else none
    | none =>
      (out.flatMap fun item =>
        match item with
        | .noContent => []
        | .content items => items).findSome? fun c =>
          if c.type = "output_text" then c.text else none

/-- `estimateFromImageAndAnswers` from the openai client module.
`callDuration` and `callResult` model when and how the SDK promise
settles when no abort intervenes; a call exceeding `timeoutMs` is
aborted and surfaces as an `AbortError` rejection.  `EstimateError`s
thrown inside the `try` propagate; an `AbortError` maps to
`upstream_timeout`; any other failure maps to
`upstream_unavailable`. -/
def estimateFromImageAndAnswers (timeoutMs : Int) (callDuration : Int)
    (callResult : Except JsError UpstreamResponse) : Except EstimateError Json :=
  let settled : Except JsError UpstreamResponse :=
    if timeoutMs < callDuration then .error ⟨"AbortError"⟩ else callResult
  match settled with
  | .error e =>
    if e.name = "AbortError" then .error ⟨"upstream_timeout", "OpenAI request timed out."⟩
    else .error ⟨"upstream_unavailable", "OpenAI request failed."⟩
  | .ok resp =>
    match resp with
    | .streamed => .error ⟨"model_invalid_response", "Model returned a streamed response."⟩
    | _ =>
      match getOutputText resp with
      | none => .error ⟨"model_invalid_response", "Model returned empty response."⟩
      | some t =>
        if t = "" then .error ⟨"model_invalid_response", "Model returned empty response."⟩
        else parseEstimatePayload t

/-! ## The Estimation Orchestrator (`estimateCalcium`)

`estimateCalcium` is embedded as a pure function of the config, the
request input, and the (would-be) outcome of the one upstream call; it
returns the outcome, the list of logger events (by event name, in
emission order), and how many times the Upstream Estimation Client was
invoked. -/

/-- The model's parsed answer as the service type declares it. -/
structure EstimateResult where
  calcium_mg : Int
  confidence : ℚ
  confidence_label : String
  explanation_short : String
  warnings : List String
deriving DecidableEq, Repr

/-- The upstream result as the service consumes it: the parsed
`EstimateResult` plus the raw model text. -/
structure EstimateOpenAIResult where
  result : EstimateResult
  rawText : String
deriving DecidableEq, Repr

/-- The outcome wrapper returned on success. -/
structure EstimateOutcome where
  result : EstimateResult
  rawText : Option String
  latencyMs : Int
  mode : String
deriving DecidableEq, Repr

deriving instance DecidableEq for Except

/-- One run of `estimateCalcium`: the returned (or thrown) outcome,
the logger events by name in order, and the number of calls made to
the Upstream Estimation Client. -/
structure ServiceRun where
  outcome : Except EstimateError EstimateOutcome
  events : List String
  upstreamCalls : Nat
deriving DecidableEq, Repr

/-- The fixed mock result. -/
def mockResult : EstimateResult :=
  { calcium_mg := 300
    confidence := 0.6
    confidence_label := "medium"
    explanation_short := "Mock estimate for development."
    warnings := [] }

/-- `estimateCalcium` from `estimateCalciumService.ts`.  Mock mode
short-circuits with the fixed result and one completion event; a falsy
API key raises `upstream_unavailable` before anything is logged or
called; otherwise the start event is logged, the upstream client is
invoked once, the latency event is logged on either success or failure
(`model_invalid_response` failures additionally log a parse-error
event), and the completion event is logged only on success. -/
def estimateCalcium (config : EstimateConfig)
    (upstream : Except EstimateError EstimateOpenAIResult) (latencyMs : Int) : ServiceRun :=
  if config.useMock then
    { outcome := .ok
        { result := mockResult, rawText := none, latencyMs := 0, mode := "mock" }
      events := ["estimate_request_completed"]
      upstreamCalls := 0 }
  else if jsStrFalsy config.apiKey then
    { outcome := .error ⟨"upstream_unavailable", "OpenAI API key missing."⟩
      events := []
      upstreamCalls := 0 }
  else
    match upstream with
    | .ok openaiResult =>
      { outcome := .ok
          { result := openaiResult.result, rawText := some openaiResult.rawText
            latencyMs := latencyMs, mode := "openai" }
        events := ["estimate_openai_request_start", "estimate_openai_request_done",
          "estimate_request_completed"]
        upstreamCalls := 1 }
    | .error e =>
      { outcome := .error e
        events := ["estimate_openai_request_start", "estimate_openai_request_done"] ++
          (if e.code = "model_invalid_response" then ["estimate_openai_parse_error"] else [])
        upstreamCalls := 1 }

/-! ## Concrete instances used by witnesses and counterexamples -/

/-- An environment that routes estimation to mock mode the way the
service reads it (`ESTIMATE_MODE=mock`) and sets nothing else. -/
def envEstimateModeMock : Env :=
  fun n => if n = "ESTIMATE_MODE" then some "mock" else none

/-- The empty environment. -/
def emptyEnv : Env := fun _ => none

/-- An environment holding only an API key. -/
def envWithKey : Env :=
  fun n => if n = "OPENAI_API_KEY" then some "sk-test-1234567890" else none

/-- A concrete mock-mode config. -/
def cfgMockLocal : EstimateConfig :=
  { useMock := true, apiKeyPresent := false, model := "gpt-4o-mini", baseUrl := none,
    apiKey := none, timeoutMs := 45000, promptVersion := "estimateCalcium_v1",
    promptOverride := none }

/-- A concrete live-mode config holding an API key. -/
def cfgLiveKeyed : EstimateConfig :=
  { useMock := false, apiKeyPresent := true, model := "gpt-4o-mini", baseUrl := none,
    apiKey := some "sk-test-1234567890", timeoutMs := 45000,
    promptVersion := "estimateCalcium_v1", promptOverride := none }

/-- A concrete live-mode config with no API key. -/
def cfgLiveKeyless : EstimateConfig :=
  { useMock := false, apiKeyPresent := false, model := "gpt-4o-mini", baseUrl := none,
    apiKey := none, timeoutMs := 45000, promptVersion := "estimateCalcium_v1",
    promptOverride := none }

/-- A concrete derived config with estimation disabled and the lockout
engaged (mock mode off). -/
def cfgDisabledLocked : DerivedConfig :=
  { estimationEnabled := false, lockoutActive := true, rateLimitEnabled := true,
    circuitBreakerEnabled := true, adminKey := "changeme", deviceHashSalt := "local-dev-salt",
    localizationPackUrlBase := "http://localhost:7071/locales", useMockEstimate := false,
    openaiModel := "gpt-4o-mini", openaiBaseUrl := none, openaiTimeoutMs := 45000,
    estimatorPromptVersion := "estimateCalcium_v1", estimatorPrompt := none }

/-- The same concrete derived config with estimation enabled and the
lockout released, so the API key is required. -/
def cfgAllEnabled : DerivedConfig :=
  { cfgDisabledLocked with estimationEnabled := true, lockoutActive := false }

/-- A concrete successful upstream result. -/
def okUpstream : EstimateOpenAIResult :=
  { result := { calcium_mg := 250, confidence := 0.8, confidence_label := "high",
                explanation_short := "Yogurt with milk.", warnings := [] },
    rawText := "\x7b\"calcium_mg\": 250\x7d" }

/-! ## Theorems settling the claims -/

/-- C1: the claim that `buildEnvReport (getDerivedConfig ...)` and
`getConfig ()` always agree on mock mode and missing-required fails on
the code: with `ESTIMATE_MODE=mock` and nothing else set, `getConfig`
routes the request to mock mode (`useMock = true`), yet the derived
config reads the different variable `USE_MOCK_ESTIMATE`, so the report
still lists `OPENAI_API_KEY` in `missing_required` and the handler
blocks the mock-routed request. -/
theorem C1_mock_mode_env_report_divergence :
    (getConfig envEstimateModeMock).useMock = true ∧
    (getDerivedConfig envEstimateModeMock).useMockEstimate = false ∧
    (getConfig envEstimateModeMock).apiKeyPresent = false ∧
    isPresent (envEstimateModeMock "OPENAI_API_KEY") = false ∧
    "OPENAI_API_KEY" ∈
      (buildEnvReport envEstimateModeMock (getDerivedConfig envEstimateModeMock)).missing_required :=
  ⟨by decide, by decide, by decide, by decide, by decide⟩

/-- C2: with `useMock = true`, `estimateCalcium` returns exactly the
fixed mock outcome (`calcium_mg = 300`, `confidence = 0.6`,
`confidence_label = "medium"`, no warnings, `mode = "mock"`,
`rawText = null`, `latencyMs = 0`) and never invokes the Upstream
Estimation Client. -/
theorem C2_mock_mode_fixed_outcome (config : EstimateConfig)
    (upstream : Except EstimateError EstimateOpenAIResult) (latencyMs : Int)
    (h : config.useMock = true) :
    (estimateCalcium config upstream latencyMs).outcome =
      .ok { result := { calcium_mg := 300, confidence := 0.6, confidence_label := "medium",
                        explanation_short := "Mock estimate for development.", warnings := [] },
            rawText := none, latencyMs := 0, mode := "mock" } ∧
    (estimateCalcium config upstream latencyMs).upstreamCalls = 0 := by
  constructor <;> simp [estimateCalcium, h, mockResult]

/-- Witness for C2 at a concrete mock config and upstream value. -/
theorem C2_mock_mode_fixed_outcome_witness :
    cfgMockLocal.useMock = true ∧
    ((estimateCalcium cfgMockLocal (.ok okUpstream) 7).outcome =
      .ok { result := { calcium_mg := 300, confidence := 0.6, confidence_label := "medium",
                        explanation_short := "Mock estimate for development.", warnings := [] },
            rawText := none, latencyMs := 0, mode := "mock" } ∧
    (estimateCalcium cfgMockLocal (.ok okUpstream) 7).upstreamCalls = 0) :=
  ⟨rfl, C2_mock_mode_fixed_outcome cfgMockLocal (.ok okUpstream) 7 rfl⟩

/-- C5: with `useMock = false` and no API key, `estimateCalcium` fails
with the typed `upstream_unavailable` error before anything is logged
and without invoking the Upstream Estimation Client. -/
theorem C5_missing_key_guard (config : EstimateConfig)
    (upstream : Except EstimateError EstimateOpenAIResult) (latencyMs : Int)
    (hm : config.useMock = false) (hk : config.apiKey = none) :
    (estimateCalcium config upstream latencyMs).outcome =
      .error ⟨"upstream_unavailable", "OpenAI API key missing."⟩ ∧
    (estimateCalcium config upstream latencyMs).upstreamCalls = 0 ∧
    (estimateCalcium config upstream latencyMs).events = [] := by
  refine ⟨?_, ?_, ?_⟩ <;> simp [estimateCalcium, hm, hk, jsStrFalsy]

/-- Witness for C5 at a concrete keyless live config. -/
theorem C5_missing_key_guard_witness :
    cfgLiveKeyless.useMock = false ∧ cfgLiveKeyless.apiKey = none ∧
    ((estimateCalcium cfgLiveKeyless (.ok okUpstream) 3).outcome =
      .error ⟨"upstream_unavailable", "OpenAI API key missing."⟩ ∧
    (estimateCalcium cfgLiveKeyless (.ok okUpstream) 3).upstreamCalls = 0 ∧
    (estimateCalcium cfgLiveKeyless (.ok okUpstream) 3).events = []) :=
  ⟨rfl, rfl, C5_missing_key_guard cfgLiveKeyless (.ok okUpstream) 3 rfl rfl⟩

/-- C3 counterexample: in an invocation where the config is live (an
API key is present) and the upstream call fails, the overall-completion
event is emitted zero times, not once — the claim's "exactly once per
phase ... whether the call succeeds or fails" is false on the code. -/
theorem C3_completion_not_logged_on_failure :
    (estimateCalcium cfgLiveKeyed
        (.error ⟨"upstream_unavailable", "OpenAI request failed."⟩) 12).events.count
      "estimate_request_completed" = 0 ∧
    (estimateCalcium cfgLiveKeyed
        (.error ⟨"upstream_unavailable", "OpenAI request failed."⟩) 12).events.count
      "estimate_openai_request_start" = 1 :=
  ⟨by decide, by decide⟩

/-- C3 as amended: in live mode with an API key present, the
request-start and upstream-completion events are each emitted exactly
once regardless of success or failure, while the overall-completion
event is emitted exactly once on success and not at all on failure; in
mock mode only the overall-completion event is emitted (once); when
the key is missing nothing is logged. -/
theorem C3_logging_per_phase (config : EstimateConfig)
    (upstream : Except EstimateError EstimateOpenAIResult) (latencyMs : Int) :
    (config.useMock = true →
      (estimateCalcium config upstream latencyMs).events = ["estimate_request_completed"]) ∧
    (config.useMock = false → jsStrFalsy config.apiKey = true →
      (estimateCalcium config upstream latencyMs).events = []) ∧
    (config.useMock = false → jsStrFalsy config.apiKey = false →
      (estimateCalcium config upstream latencyMs).events.count "estimate_openai_request_start" = 1 ∧
      (estimateCalcium config upstream latencyMs).events.count "estimate_openai_request_done" = 1 ∧
      (estimateCalcium config upstream latencyMs).events.count "estimate_request_completed" =
        (match upstream with | .ok _ => 1 | .error _ => 0)) := by
  refine ⟨fun h => by simp [estimateCalcium, h], fun h hk => by simp [estimateCalcium, h, hk],
    fun h hk => ?_⟩
  rcases upstream with e | r
  · by_cases hc : e.code = "model_invalid_response" <;>
      refine ⟨?_, ?_, ?_⟩ <;> simp [estimateCalcium, h, hk, hc]
  · refine ⟨?_, ?_, ?_⟩ <;> simp [estimateCalcium, h, hk]

/-- Witness for C3 (amended) at a concrete live config with a
successful upstream call. -/
theorem C3_logging_per_phase_witness :
    cfgLiveKeyed.useMock = false ∧ jsStrFalsy cfgLiveKeyed.apiKey = false ∧
    ((estimateCalcium cfgLiveKeyed (.ok okUpstream) 5).events.count
        "estimate_openai_request_start" = 1 ∧
      (estimateCalcium cfgLiveKeyed (.ok okUpstream) 5).events.count
        "estimate_openai_request_done" = 1 ∧
      (estimateCalcium cfgLiveKeyed (.ok okUpstream) 5).events.count
        "estimate_request_completed" = 1) :=
  ⟨rfl, rfl, (C3_logging_per_phase cfgLiveKeyed (.ok okUpstream) 5).2.2 rfl rfl⟩

/-- C4: when the upstream call exceeds `timeoutMs`, the cancellation
timer aborts the in-flight call, `estimateFromImageAndAnswers` fails
with the typed `upstream_timeout` error (not `upstream_unavailable`),
and `estimateCalcium` propagates exactly that typed error. -/
theorem C4_timeout_yields_upstream_timeout (timeoutMs callDuration : Int)
    (callResult : Except JsError UpstreamResponse) (config : EstimateConfig)
    (latencyMs : Int) (hto : timeoutMs < callDuration) :
    estimateFromImageAndAnswers timeoutMs callDuration callResult =
      .error ⟨"upstream_timeout", "OpenAI request timed out."⟩ ∧
    (⟨"upstream_timeout", "OpenAI request timed out."⟩ : EstimateError).code ≠
      "upstream_unavailable" ∧
    (config.useMock = false → jsStrFalsy config.apiKey = false →
      (estimateCalcium config
          (.error ⟨"upstream_timeout", "OpenAI request timed out."⟩) latencyMs).outcome =
        .error ⟨"upstream_timeout", "OpenAI request timed out."⟩) := by
  refine ⟨?_, by decide, fun h hk => by simp [estimateCalcium, h, hk]⟩
  simp [estimateFromImageAndAnswers, hto]

/-- Witness for C4: a 100 ms budget with a 250 ms simulated call. -/
theorem C4_timeout_yields_upstream_timeout_witness :
    (100 : Int) < 250 ∧ cfgLiveKeyed.useMock = false ∧ jsStrFalsy cfgLiveKeyed.apiKey = false ∧
    (estimateFromImageAndAnswers 100 250 (.ok .streamed) =
        .error ⟨"upstream_timeout", "OpenAI request timed out."⟩ ∧
      (estimateCalcium cfgLiveKeyed
          (.error ⟨"upstream_timeout", "OpenAI request timed out."⟩) 250).outcome =
        .error ⟨"upstream_timeout", "OpenAI request timed out."⟩) := by
  have h := C4_timeout_yields_upstream_timeout 100 250 (.ok .streamed) cfgLiveKeyed 250
    (by decide)
  exact ⟨by decide, rfl, rfl, h.1, h.2.2 rfl rfl⟩

/-- C6: the Schema Validator rejects `"not json"` (invalid JSON),
`"42"` (valid JSON that is not an object) and `"{}"` (an object with
no `calcium_mg`) with the typed `model_invalid_response` error, and in
general fails with that error whenever the text is not valid JSON, the
parsed value is not a (truthy) object, or `calcium_mg` is not
numeric. -/
theorem C6_schema_validator_failure_modes :
    parseEstimatePayload "not json" =
      .error ⟨"model_invalid_response", "Model returned invalid JSON."⟩ ∧
    parseEstimatePayload "42" =
      .error ⟨"model_invalid_response", "Model returned empty JSON."⟩ ∧
    parseEstimatePayload "\x7b\x7d" =
      .error ⟨"model_invalid_response", "Model response missing calcium estimate."⟩ ∧
    ∀ payload : String,
      (jsonParse payload = none ∨
        ∃ j, jsonParse payload = some j ∧
          (jsObjectLike j = false ∨ calciumNumeric j = false)) →
      ∃ msg, parseEstimatePayload payload = .error ⟨"model_invalid_response", msg⟩ := by
  refine ⟨rfl, rfl, rfl, fun payload h => ?_⟩
  rcases h with h | ⟨j, hj, hc⟩
  · exact ⟨"Model returned invalid JSON.", by simp [parseEstimatePayload, h]⟩
  · rcases hc with hc | hc
    · exact ⟨"Model returned empty JSON.", by simp [parseEstimatePayload, hj, hc]⟩
    · cases ho : jsObjectLike j
      · exact ⟨"Model returned empty JSON.", by simp [parseEstimatePayload, hj, ho]⟩
      · exact ⟨"Model response missing calcium estimate.",
          by simp [parseEstimatePayload, hj, ho, hc]⟩

/-- Witness for C6 at the concrete input `"[]"`: an array is a truthy
object but carries no numeric `calcium_mg`. -/
theorem C6_schema_validator_failure_modes_witness :
    jsonParse "[]" = some (.arr []) ∧ calciumNumeric (.arr []) = false ∧
    ∃ msg, parseEstimatePayload "[]" = .error ⟨"model_invalid_response", msg⟩ :=
  ⟨rfl, rfl, C6_schema_validator_failure_modes.2.2.2 "[]"
    (Or.inr ⟨.arr [], rfl, Or.inr rfl⟩)⟩

/-- C10: the Schema Validator succeeds exactly when the text parses as
JSON to a truthy value of object type (arrays included) whose
`calcium_mg` property is numeric, and then returns the parsed value
unmodified; negative and non-integer values are accepted and no other
field is validated. -/
theorem C10_validator_success_iff :
    (∀ (payload : String) (j : Json), parseEstimatePayload payload = .ok j ↔
      (jsonParse payload = some j ∧ jsObjectLike j = true ∧ calciumNumeric j = true)) ∧
    parseEstimatePayload "\x7b\"calcium_mg\": -1.5\x7d" =
      .ok (.obj [("calcium_mg", .num true 15 1 0)]) ∧
    parseEstimatePayload "\x7b\"calcium_mg\": 2, \"confidence\": \"bogus\"\x7d" =
      .ok (.obj [("calcium_mg", .num false 2 0 0), ("confidence", .str "bogus")]) := by
  refine ⟨fun payload j => ⟨fun hok => ?_, fun ⟨hp, h1, h2⟩ => by
    simp [parseEstimatePayload, hp, h1, h2]⟩, rfl, rfl⟩
  rcases hp : jsonParse payload with _ | j0
  · simp [parseEstimatePayload, hp] at hok
  · cases h1 : jsObjectLike j0
    · simp [parseEstimatePayload, hp, h1] at hok
    · cases h2 : calciumNumeric j0
      · simp [parseEstimatePayload, hp, h1, h2] at hok
      · simp [parseEstimatePayload, hp, h1, h2] at hok
        subst hok
        exact ⟨rfl, h1, h2⟩

/-- C8 counterexample: with estimation disabled and the lockout active
(mock mode off), the key is not required, and flipping `lockoutActive`
alone leaves it not required — flipping one of the three flags does
not always flip required-ness. -/
theorem C8_flip_does_not_always_flip :
    (statusLookup (buildEnvReport emptyEnv cfgDisabledLocked) "OPENAI_API_KEY").map
      EnvStatus.required = some false ∧
    (statusLookup (buildEnvReport emptyEnv
        { cfgDisabledLocked with lockoutActive := !cfgDisabledLocked.lockoutActive })
      "OPENAI_API_KEY").map EnvStatus.required = some false :=
  ⟨by decide, by decide⟩

/-- C8 as amended: `buildEnvReport` marks `OPENAI_API_KEY` required
exactly when `estimationEnabled && !lockoutActive && !useMockEstimate`
holds of the derived config; when the key is required, flipping any
one of those three flags (holding the other two fixed) makes it not
required. -/
theorem C8_key_required_exactly_when (env : Env) (cfg : DerivedConfig) :
    (statusLookup (buildEnvReport env cfg) "OPENAI_API_KEY").map EnvStatus.required =
      some (cfg.estimationEnabled && !cfg.lockoutActive && !cfg.useMockEstimate) ∧
    ((cfg.estimationEnabled && !cfg.lockoutActive && !cfg.useMockEstimate) = true →
      (statusLookup (buildEnvReport env
          { cfg with estimationEnabled := !cfg.estimationEnabled })
        "OPENAI_API_KEY").map EnvStatus.required = some false ∧
      (statusLookup (buildEnvReport env
          { cfg with lockoutActive := !cfg.lockoutActive })
        "OPENAI_API_KEY").map EnvStatus.required = some false ∧
      (statusLookup (buildEnvReport env
          { cfg with useMockEstimate := !cfg.useMockEstimate })
        "OPENAI_API_KEY").map EnvStatus.required = some false) := by
  have key : ∀ cfg' : DerivedConfig,
      (statusLookup (buildEnvReport env cfg') "OPENAI_API_KEY").map EnvStatus.required =
        some (cfg'.estimationEnabled && !cfg'.lockoutActive && !cfg'.useMockEstimate) := by
    intro cfg'
    cases hp : (cfg'.estimationEnabled && !cfg'.lockoutActive && !cfg'.useMockEstimate) <;>
      simp [statusLookup, buildEnvReport, getEnvSpec, openaiKeySpec, List.foldl, hp]
  refine ⟨key cfg, fun hreq => ?_⟩
  simp only [Bool.and_eq_true, Bool.not_eq_true'] at hreq
  refine ⟨?_, ?_, ?_⟩ <;> rw [key] <;>
    simp [hreq.1.1, hreq.1.2, hreq.2]

/-- Witness for C8 (amended) at a concrete fully enabled config. -/
theorem C8_key_required_exactly_when_witness :
    (cfgAllEnabled.estimationEnabled && !cfgAllEnabled.lockoutActive &&
      !cfgAllEnabled.useMockEstimate) = true ∧
    (statusLookup (buildEnvReport emptyEnv
        { cfgAllEnabled with lockoutActive := !cfgAllEnabled.lockoutActive })
      "OPENAI_API_KEY").map EnvStatus.required = some false := by
  have h := C8_key_required_exactly_when emptyEnv cfgAllEnabled
  exact ⟨by decide, (h.2 (by decide)).2.1⟩

/-- Helper: `hexChar` always yields one of the sixteen lowercase hex
digits. -/
theorem hexChar_mem (n : Nat) : hexChar n ∈ hexDigits := by
  have hlen : hexDigits.length = 16 := by decide
  have h : n % 16 < hexDigits.length := by
    rw [hlen]; exact Nat.mod_lt _ (by norm_num)
  unfold hexChar
  rw [List.getD_eq_getElem _ _ h]
  exact List.getElem_mem h

/-- Helper: every character of a hex-rendered word is a hex digit. -/
theorem wordHexChars_mem (w : Nat) (c : Char) (hc : c ∈ wordHexChars w) : c ∈ hexDigits := by
  simp only [wordHexChars, List.mem_cons, List.not_mem_nil, or_false] at hc
  rcases hc with rfl | rfl | rfl | rfl | rfl | rfl | rfl | rfl <;> exact hexChar_mem _

/-- Helper: the hex digest is 64 characters long. -/
theorem sha256HexChars_length (msg : List Nat) : (sha256HexChars msg).length = 64 := by
  simp [sha256HexChars, wordHexChars]

/-- Helper: every character of the hex digest is a hex digit. -/
theorem sha256HexChars_mem (msg : List Nat) (c : Char) (hc : c ∈ sha256HexChars msg) :
    c ∈ hexDigits := by
  simp only [sha256HexChars, List.mem_append] at hc
  rcases hc with (((((((h | h) | h) | h) | h) | h) | h) | h) <;> exact wordHexChars_mem _ _ h

/-- Helper: the secret fingerprint always has exactly 8 characters. -/
theorem sha256_8_length (v : String) : (sha256_8 v).length = 8 := by
  show ((sha256HexChars (utf8Bytes v)).take 8).length = 8
  simp [List.length_take, sha256HexChars_length]

/-- Helper: the secret fingerprint consists of hex digits only. -/
theorem sha256_8_chars_hex (v : String) : ∀ c ∈ (sha256_8 v).data, c ∈ hexDigits := by
  intro c hc
  exact sha256HexChars_mem _ _ (List.mem_of_mem_take hc)

/-- C9: for every secret-classified environment variable that is
present, the snapshot entry carries only the presence flag, the
value's length and the fixed-length 8-hex-character fingerprint
`sha256_8 value`; in particular the entry's only string field has
length 8, so no value longer than 8 characters can occur anywhere in
it. -/
theorem C9_secret_snapshot_redacted (env : Env) (cfg : DerivedConfig) (spec : EnvSpec)
    (v : String) (hmem : spec ∈ getEnvSpec) (hsec : spec.isSecret = true)
    (hval : env spec.name = some v) (hpres : isPresent (some v) = true) :
    snapshotLookup (buildEnvReport env cfg) spec.name =
      some (.secret v.length (sha256_8 v)) ∧
    (sha256_8 v).length = 8 ∧
    (∀ c ∈ (sha256_8 v).data, c ∈ hexDigits) ∧
    (8 < v.length → ∀ i, ((sha256_8 v).data.drop i).take v.data.length ≠ v.data) := by
  refine ⟨?_, sha256_8_length v, sha256_8_chars_hex v, ?_⟩
  · have hv : v ≠ "" := fun h => by subst h; simp [isPresent, jsTrim] at hpres
    fin_cases hmem <;> first
      | exact absurd hsec (by decide)
      | (simp only [openaiKeySpec] at hval ⊢
         simp [snapshotLookup, buildEnvReport, getEnvSpec, openaiKeySpec, List.foldl, hval,
           snapshotEntry, hpres, jsLenOpt, jsHashOpt, hv])
  · intro hlen i heq
    have hcontr := congrArg List.length heq
    have h8 : (sha256_8 v).data.length = 8 := sha256_8_length v
    simp only [List.length_take, List.length_drop, h8] at hcontr
    have hlen' : 8 < v.data.length := hlen
    omega

/-- Witness for C9: a concrete environment holding only an 18-character
API key. -/
theorem C9_secret_snapshot_redacted_witness :
    openaiKeySpec.isSecret = true ∧
    envWithKey openaiKeySpec.name = some "sk-test-1234567890" ∧
    isPresent (some "sk-test-1234567890") = true ∧
    (snapshotLookup (buildEnvReport envWithKey (getDerivedConfig envWithKey))
        openaiKeySpec.name =
      some (.secret ("sk-test-1234567890" : String).length (sha256_8 "sk-test-1234567890")) ∧
    (sha256_8 "sk-test-1234567890").length = 8) := by
  have hmem : openaiKeySpec ∈ getEnvSpec := by simp [getEnvSpec]
  have h := C9_secret_snapshot_redacted envWithKey (getDerivedConfig envWithKey) openaiKeySpec
    "sk-test-1234567890" hmem rfl (by decide) (by decide)
  exact ⟨rfl, by decide, by decide, h.1, h.2.1⟩

end CalciumTracker
